import Mathlib

/-!
Verification development for the ATC kinematics core
(`atc-brain-python/engine/`).  The Python sources are shallowly embedded:
pure numeric code is translated to functions over `ℚ` (transcendental
constants such as tan 25deg, tan 3deg and the geo trigonometry are abstracted
as parameters), stateful database code becomes explicit state passing over a
`Store` value, and fallible I/O is modelled with explicit success booleans.
-/

namespace ATC

/-! ## Python primitives

`pyIn pat s` is Python's substring containment (turning the source's
`tag in last_event` checks into a decidable Lean function), `pymod` is
Python's float `%` (result has the sign of the divisor), and the two wrap
functions are closed forms of the normalization `while` loops that add or
subtract 360 until the value is in range. -/

/-- Substring occurrence on character lists: some suffix of `s` has `pat`
as a prefix. -/
def listContainsSub (s pat : List Char) : Bool :=
  (List.range (s.length + 1)).any (fun i => pat.isPrefixOf (s.drop i))

/-- Python's `pat in s` for strings. -/
def pyIn (pat s : String) : Bool :=
  listContainsSub s.data pat.data

/-- Python's `x % m` on floats (for `m > 0` the result is in `[0, m)`). -/
def pymod (x m : ℚ) : ℚ := x - m * ⌊x / m⌋

/-- Closed form of the heading-normalization loops
`while x < 0: x += 360` / `while x >= 360: x -= 360`
(geo_utils.normalize_heading, kinematics.update_heading,
kinematics.apply_random_drift): the unique value in `[0, 360)` congruent
to `x` mod 360. -/
def wrap360 (x : ℚ) : ℚ := x - 360 * ⌊x / 360⌋

/-- Closed form of the signed-difference normalization loops
`while d > 180: d -= 360` / `while d < -180: d += 360`
(geo_utils.heading_difference, kinematics.update_heading).  Each loop
subtracts (resp. adds) 360 the minimal number of times needed to reach
the stated bound, so the result is `x - 360*n` with `n` the ceiling shown. -/
def wrapPm180 (x : ℚ) : ℚ :=
  if 180 < x then x - 360 * ⌈(x - 180) / 360⌉
  else if x < -180 then x + 360 * ⌈(-180 - x) / 360⌉
  else x

/-! ## Constants (engine/constants.py) -/

/-- DT = 1.0 s. -/
def DT : ℚ := 1
/-- A_ACC_MAX = 0.6 kt/s. -/
def A_ACC_MAX : ℚ := 3/5
/-- A_DEC_MAX = 0.8 kt/s. -/
def A_DEC_MAX : ℚ := 4/5
/-- H_DOT_CLIMB_MAX = 2500 fpm. -/
def H_DOT_CLIMB_MAX : ℚ := 2500
/-- H_DOT_DESCENT_MAX = 3000 fpm. -/
def H_DOT_DESCENT_MAX : ℚ := 3000
/-- H_DOT_DESCENT_MAX_APPROACH = 1800 fpm. -/
def H_DOT_DESCENT_MAX_APPROACH : ℚ := 1800
/-- ENTRY_ZONE_THRESHOLD_NM = 30.0. -/
def ENTRY_ZONE_THRESHOLD_NM : ℚ := 30
/-- HANDOFF_READY_THRESHOLD_NM = 20.0. -/
def HANDOFF_READY_THRESHOLD_NM : ℚ := 20
/-- TOUCHDOWN_ALTITUDE_FT = 50.0 (AGL). -/
def TOUCHDOWN_ALTITUDE_FT : ℚ := 50
/-- FT_PER_NM = 6076. -/
def FT_PER_NM : ℚ := 6076
/-- DEFAULT_MIN_SPEED_KTS = 140.0. -/
def DEFAULT_MIN_SPEED_KTS : ℚ := 140
/-- DEFAULT_MAX_SPEED_KTS = 550.0. -/
def DEFAULT_MAX_SPEED_KTS : ℚ := 550
/-- DRIFT_SPEED_KT = 5.0. -/
def DRIFT_SPEED_KT : ℚ := 5
/-- DRIFT_HEADING_DEG = 2.0. -/
def DRIFT_HEADING_DEG : ℚ := 2
/-- CYYZ_ELEVATION_FT = 569.0. -/
def CYYZ_ELEVATION_FT : ℚ := 569
/-- The knots-to-metres-per-second factor 0.514444 used in kinematics.py. -/
def KT_TO_MS : ℚ := 514444/1000000

/-- Event tag ENTERED_ENTRY_ZONE. -/
def EVENT_ENTERED_ENTRY_ZONE : String := "ENTERED_ENTRY_ZONE"
/-- Event tag HANDOFF_READY. -/
def EVENT_HANDOFF_READY : String := "HANDOFF_READY"
/-- Event tag TOUCHDOWN. -/
def EVENT_TOUCHDOWN : String := "TOUCHDOWN"

/-! ## Geo (engine/geo_utils.py)

Only the trigonometry-free functions are embedded directly; the
trigonometric ones (`distance_to_airport`, `update_position`) are
abstracted as function parameters where used. -/

/-- geo_utils.heading_difference: shortest signed angular difference,
normalized by the two `while` loops. -/
def heading_difference (current target : ℚ) : ℚ :=
  wrapPm180 (target - current)

/-- geo_utils.normalize_heading. -/
def normalize_heading (heading : ℚ) : ℚ := wrap360 heading

/-- geo_utils.altitude_msl_to_agl. -/
def altitude_msl_to_agl (altitude_msl elevation : ℚ) : ℚ :=
  altitude_msl - elevation

/-! ## Kinematics (engine/kinematics.py) -/

/-- kinematics.clip. -/
def clip (value min_val max_val : ℚ) : ℚ :=
  max min_val (min max_val value)

/-- kinematics.update_speed: track the target under acceleration limits,
then clamp to the safety envelope. -/
def update_speed (current_speed target_speed : ℚ) (dt : ℚ := DT) : ℚ :=
  let speed_error := target_speed - current_speed
  let max_accel := A_ACC_MAX * dt
  let max_decel := -(A_DEC_MAX * dt)
  let delta_speed := clip speed_error max_decel max_accel
  let new_speed := current_speed + delta_speed
  clip new_speed DEFAULT_MIN_SPEED_KTS DEFAULT_MAX_SPEED_KTS

/-- kinematics.calculate_max_turn_rate.  `gtanDeg` abstracts the
transcendental constant `degrees(G * tan(PHI_MAX_RAD))`, so that the
returned rate is `degrees(G * tan(phi) / speed_ms)` with the source's
low-speed guard. -/
def calculate_max_turn_rate (gtanDeg speed_kts : ℚ) : ℚ :=
  let speed_ms := speed_kts * KT_TO_MS
  if speed_ms < 1 then 0
  else gtanDeg / speed_ms

/-- kinematics.update_heading: shortest-path heading error, clipped to the
bank-limited turn rate, result wrapped into [0, 360). -/
def update_heading (gtanDeg current_heading target_heading speed_kts : ℚ)
    (dt : ℚ := DT) : ℚ :=
  let heading_error := wrapPm180 (target_heading - current_heading)
  let max_turn_rate := calculate_max_turn_rate gtanDeg speed_kts
  let max_heading_change := max_turn_rate * dt
  let delta_heading := clip heading_error (-max_heading_change) max_heading_change
  wrap360 (current_heading + delta_heading)

/-- kinematics.update_altitude: returns (new_altitude, vertical_speed_fpm). -/
def update_altitude (current_altitude target_altitude distance_to_airport : ℚ)
    (is_approach : Bool := false) (dt : ℚ := DT) : ℚ × ℚ :=
  let altitude_error := target_altitude - current_altitude
  let max_climb_fpm :=
    if is_approach || distance_to_airport < 10 then H_DOT_DESCENT_MAX_APPROACH
    else H_DOT_CLIMB_MAX
  let max_descent_fpm :=
    if is_approach || distance_to_airport < 10 then H_DOT_DESCENT_MAX_APPROACH
    else H_DOT_DESCENT_MAX
  let max_climb_ft := (max_climb_fpm / 60) * dt
  let max_descent_ft := -((max_descent_fpm / 60) * dt)
  let delta_altitude := clip altitude_error max_descent_ft max_climb_ft
  let new_altitude := current_altitude + delta_altitude
  let vertical_speed_fpm := (delta_altitude / dt) * 60
  (new_altitude, vertical_speed_fpm)

/-- kinematics.calculate_glideslope_altitude.  `slope` abstracts the
transcendental default `GLIDESLOPE_SLOPE = tan(radians(3.0))`. -/
def calculate_glideslope_altitude (slope distance_nm : ℚ)
    (runway_elevation : ℚ := CYYZ_ELEVATION_FT) : ℚ :=
  let altitude_above_threshold := FT_PER_NM * slope * distance_nm
  runway_elevation + altitude_above_threshold

/-- kinematics.apply_random_drift.  `drift` is the value drawn by
`random.uniform(-drift_amount, drift_amount)`, taken here as an oracle
input (theorems hypothesize its bound). -/
def apply_random_drift (drift current_value : ℚ)
    (is_circular : Bool := false) : ℚ :=
  let new_value := current_value + drift
  if is_circular then wrap360 new_value else new_value

/-- The slice of the aircraft dict read by kinematics.update_aircraft_state. -/
structure KinState where
  lat : ℚ
  lon : ℚ
  altitude_ft : ℚ
  speed_kts : ℚ
  heading : ℚ
  target_speed_kts : Option ℚ
  target_heading_deg : Option ℚ
  target_altitude_ft : Option ℚ
deriving DecidableEq, Repr

/-- The kinematics output consumed by the engine: the new position fields
plus `vertical_speed_fpm` and `distance_to_airport_nm`. -/
structure KinOut where
  lat : ℚ
  lon : ℚ
  altitude_ft : ℚ
  speed_kts : ℚ
  heading : ℚ
  vertical_speed_fpm : ℚ
  distance_to_airport_nm : ℚ
deriving DecidableEq, Repr

namespace Kinematics

/-- kinematics.update_aircraft_state, the per-tick step.  The geo helpers
are abstracted: `distOf` stands for geo_utils.distance_to_airport and
`updatePos` for geo_utils.update_position; `gtanDeg` and `slope` are the
transcendental constants as above; `driftS`/`driftH` are the oracle values
of the two `random.uniform` draws in the drift branches. -/
def update_aircraft_state
    (distOf : ℚ → ℚ → ℚ) (updatePos : ℚ → ℚ → ℚ → ℚ → ℚ → ℚ × ℚ)
    (gtanDeg slope driftS driftH : ℚ) (a : KinState) (dt : ℚ := DT) : KinOut :=
  let distance_nm := distOf a.lat a.lon
  let is_approach : Bool := distance_nm < 20
  let new_speed :=
    match a.target_speed_kts with
    | some t => update_speed a.speed_kts t dt
    | none =>
        clip (apply_random_drift driftS a.speed_kts false)
          DEFAULT_MIN_SPEED_KTS DEFAULT_MAX_SPEED_KTS
  let new_heading :=
    match a.target_heading_deg with
    | some t => update_heading gtanDeg a.heading t a.speed_kts dt
    | none => apply_random_drift driftH a.heading true
  let av :=
    match a.target_altitude_ft with
    | some t => update_altitude a.altitude_ft t distance_nm is_approach dt
    | none =>
        if distance_nm < 30 then
          update_altitude a.altitude_ft
            (calculate_glideslope_altitude slope distance_nm) distance_nm true dt
        else (a.altitude_ft, 0)
  let np := updatePos a.lat a.lon new_heading new_speed dt
  { lat := np.1, lon := np.2, altitude_ft := av.1, speed_kts := new_speed,
    heading := new_heading, vertical_speed_fpm := av.2,
    distance_to_airport_nm := distance_nm }

end Kinematics

/-! ## StateManager (engine/state_manager.py)

The PostgreSQL-backed store becomes an explicit `Store` value; each
fallible call takes a `dbOk : Bool` oracle for the environmental
availability of the database on that call (connection loss, timeout):
when `dbOk = false` the call raises, is caught, and reports failure with
no state change. -/

/-- The JSON `position` column. -/
structure Pos where
  lat : ℚ
  lon : ℚ
  altitude_ft : ℚ
  speed_kts : ℚ
  heading : ℚ
deriving DecidableEq, Repr

/-- A value bound to an UPDATE parameter. -/
inductive FieldVal where
  | vStr (s : String)
  | vNum (q : ℚ)
  | vOptNum (q : Option ℚ)
  | vPos (p : Pos)
deriving DecidableEq, Repr

/-- A row of `aircraft_instances` (the columns the engine touches). -/
structure AircraftRow where
  id : Nat
  callsign : String
  flight_type : String
  status : String
  controller : String
  phase : String
  last_event_fired : String
  position : Pos
  target_speed_kts : Option ℚ
  target_heading_deg : Option ℚ
  target_altitude_ft : Option ℚ
  vertical_speed_fpm : ℚ
deriving DecidableEq, Repr

/-- A row of the append-only `events` table (descriptive text fields such
as `message`/`details` are omitted; no claim mentions them). -/
structure EventRow where
  level : String
  type : String
  aircraft_id : Option Nat
  sector : String
  direction : String
deriving DecidableEq, Repr

/-- The database state: the `aircraft_instances` table and the `events` log. -/
structure Store where
  aircraft : List AircraftRow
  events : List EventRow
deriving DecidableEq, Repr

namespace StateManager

/-- The non-position keys accepted by update_aircraft_state
(state_manager.py lines 131-132).  Note: "status" is absent. -/
def UPDATE_WHITELIST : List String :=
  ["target_speed_kts", "target_heading_deg", "target_altitude_ft",
   "vertical_speed_fpm", "phase", "last_event_fired", "controller"]

/-- The dynamic UPDATE statement built by update_aircraft_state:
accepted SET clauses, each holding its value and its `$` parameter index,
and the parameter index of the final `WHERE id = $n` clause. -/
structure UpdateQuery where
  accepted : List (String × FieldVal × Nat)
  whereIdx : Nat
deriving Repr

/-- The query-building loop (state_manager.py lines 122-150): `param_idx`
starts at 1 and is incremented for every key of `updates`, accepted or
not; an accepted key contributes a clause carrying the index it saw.
After the loop, `WHERE id` uses the final `param_idx`. -/
def buildUpdateQuery (updates : List (String × FieldVal)) : UpdateQuery :=
  let r := updates.foldl
    (fun (acc : List (String × FieldVal × Nat) × Nat) kv =>
      if kv.1 = "position" ∨ kv.1 ∈ UPDATE_WHITELIST then
        (acc.1 ++ [(kv.1, kv.2, acc.2)], acc.2 + 1)
      else
        (acc.1, acc.2 + 1))
    ([], 1)
  { accepted := r.1, whereIdx := r.2 }

/-- The driver binds the collected values positionally as `$1..$n`
(`n` = number of accepted values plus one for the id); PostgreSQL accepts
the statement only if the parameter indices it references are exactly
`$1..$n`.  A skipped key leaves a hole, the statement is rejected and the
call fails. -/
def queryParamsOk (q : UpdateQuery) : Bool :=
  ((q.accepted.map fun c => c.2.2) ++ [q.whereIdx])
    == List.range' 1 (q.accepted.length + 1)

/-- Column assignment for one accepted SET clause. -/
def applyField (r : AircraftRow) (key : String) (v : FieldVal) : AircraftRow :=
  match key, v with
  | "position", .vPos p => { r with position := p }
  | "target_speed_kts", .vOptNum q => { r with target_speed_kts := q }
  | "target_heading_deg", .vOptNum q => { r with target_heading_deg := q }
  | "target_altitude_ft", .vOptNum q => { r with target_altitude_ft := q }
  | "vertical_speed_fpm", .vNum q => { r with vertical_speed_fpm := q }
  | "phase", .vStr s => { r with phase := s }
  | "last_event_fired", .vStr s => { r with last_event_fired := s }
  | "controller", .vStr s => { r with controller := s }
  | "status", .vStr s => { r with status := s }
  | _, _ => r

/-- StateManager.update_aircraft_state.  `aircraft_id` is an `Option`
because the spawn path may pass a missing id (`None` in Python), in which
case the UPDATE matches no row but still succeeds.  Empty clause list:
no-op success before any database call. -/
def update_aircraft_state (dbOk : Bool) (st : Store) (aircraft_id : Option Nat)
    (updates : List (String × FieldVal)) : Store × Bool :=
  let q := buildUpdateQuery updates
  if q.accepted.isEmpty then (st, true)
  else if dbOk && queryParamsOk q then
    ({ st with aircraft := st.aircraft.map fun r =>
        if some r.id = aircraft_id then
          q.accepted.foldl (fun r c => applyField r c.1 c.2.1) r
        else r }, true)
  else (st, false)

/-- StateManager.mark_touchdown. -/
def mark_touchdown (dbOk : Bool) (st : Store) (aircraft_id : Nat) : Store × Bool :=
  update_aircraft_state dbOk st (some aircraft_id)
    [("status", .vStr "landed"), ("controller", .vStr "GROUND"),
     ("phase", .vStr "TOUCHDOWN")]

/-- StateManager.create_event: insert one event row. -/
def create_event (dbOk : Bool) (st : Store) (ev : EventRow) : Store × Bool :=
  if dbOk then ({ st with events := st.events ++ [ev] }, true)
  else (st, false)

/-- StateManager.get_active_arrivals: active arrivals owned by
`controller` (the ordering and LIMIT 100 of the SQL query are immaterial
to the claims and not modelled). -/
def get_active_arrivals (st : Store) (controller : String := "ENGINE") :
    List AircraftRow :=
  st.aircraft.filter fun r =>
    r.status == "active" && r.controller == controller
      && r.flight_type == "ARRIVAL"

end StateManager

/-! ## Engine (engine/core_engine.py) -/

namespace Engine

/-- Environmental database availability for the three kinds of writes a
single `process_aircraft` call can issue. -/
structure TickEnv where
  markDbOk : Bool
  eventDbOk : Bool
  updateDbOk : Bool
deriving DecidableEq, Repr

/-- KinematicsEngine.determine_phase. -/
def determine_phase (distance_nm altitude_agl : ℚ) : String :=
  if altitude_agl < 500 then "FINAL"
  else if distance_nm < 10 then "APPROACH"
  else if distance_nm < 30 then "DESCENT"
  else "CRUISE"

/-- The threshold selection of KinematicsEngine.process_aircraft
(core_engine.py lines 207-265): the `if/elif` chain that picks at most
one `new_event` per tick, in the priority order TOUCHDOWN,
HANDOFF_READY, ENTERED_ENTRY_ZONE, guarded by Python substring tests
against `last_event_fired`. -/
def firedTag (last_event : String) (distance_nm altitude_agl : ℚ) :
    Option String :=
  if altitude_agl < TOUCHDOWN_ALTITUDE_FT ∧ pyIn EVENT_TOUCHDOWN last_event = false then
    some EVENT_TOUCHDOWN
  else if distance_nm ≤ HANDOFF_READY_THRESHOLD_NM ∧ pyIn EVENT_HANDOFF_READY last_event = false then
    some EVENT_HANDOFF_READY
  else if distance_nm ≤ ENTRY_ZONE_THRESHOLD_NM ∧ pyIn EVENT_ENTERED_ENTRY_ZONE last_event = false then
    some EVENT_ENTERED_ENTRY_ZONE
  else
    none

/-- Tag append (core_engine.py lines 290-294): comma-join onto the
existing string, or start it when empty (Python string truthiness). -/
def appendTag (last_event new_event : String) : String :=
  if last_event ≠ "" then last_event ++ "," ++ new_event else new_event

/-- The end-of-tick persistence (core_engine.py lines 296-306): the
`updates` dict holds position, vertical_speed_fpm and phase, plus
`last_event_fired` when a threshold fired this tick. -/
def persistState (e : TickEnv) (st : Store) (a : AircraftRow) (kin : KinOut)
    (phase : String) (new_event : Option String) : Store :=
  let position : Pos :=
    ⟨kin.lat, kin.lon, kin.altitude_ft, kin.speed_kts, kin.heading⟩
  let base := [("position", FieldVal.vPos position),
               ("vertical_speed_fpm", FieldVal.vNum kin.vertical_speed_fpm),
               ("phase", FieldVal.vStr phase)]
  let updates :=
    match new_event with
    | some ev =>
        base ++ [("last_event_fired",
                  FieldVal.vStr (appendTag a.last_event_fired ev))]
    | none => base
  (StateManager.update_aircraft_state e.updateDbOk st (some a.id) updates).1

/-- KinematicsEngine.process_aircraft, with the kinematics result `kin`
(= Kinematics.update_aircraft_state of the fetched row) passed in.
The TOUCHDOWN branch calls mark_touchdown, inserts the event row, and
returns early — it never reaches the end-of-tick persistence.  The two
distance branches insert their event row and fall through to the common
persistence with the tag appended.  Bus publishes are best-effort and do
not touch `Store`. -/
def process_aircraft (e : TickEnv) (kin : KinOut) (st : Store)
    (a : AircraftRow) : Store :=
  let distance_nm := kin.distance_to_airport_nm
  let altitude_agl := altitude_msl_to_agl kin.altitude_ft CYYZ_ELEVATION_FT
  let phase := determine_phase distance_nm altitude_agl
  match firedTag a.last_event_fired distance_nm altitude_agl with
  | some "TOUCHDOWN" =>
      let s1 := (StateManager.mark_touchdown e.markDbOk st a.id).1
      ((StateManager.create_event e.eventDbOk s1
        { level := "INFO", type := "aircraft.touchdown",
          aircraft_id := some a.id, sector := "TWR", direction := "SYS" }).1)
  | some "HANDOFF_READY" =>
      let s1 := (StateManager.create_event e.eventDbOk st
        { level := "INFO", type := "aircraft.handoff_ready",
          aircraft_id := some a.id, sector := "APP", direction := "SYS" }).1
      persistState e s1 a kin phase (some EVENT_HANDOFF_READY)
  | some "ENTERED_ENTRY_ZONE" =>
      let s1 := (StateManager.create_event e.eventDbOk st
        { level := "INFO", type := "aircraft.entered_entry_zone",
          aircraft_id := some a.id, sector := "CTR", direction := "SYS" }).1
      persistState e s1 a kin phase (some EVENT_ENTERED_ENTRY_ZONE)
  | _ =>
      persistState e st a kin phase none

/-- KinematicsEngine.tick: fetch the roster once, then process each
fetched row in order against the evolving store.  `kinOf` gives the
kinematics result for each aircraft id (the periodic `engine.status`
bookkeeping events are immaterial to the claims and not modelled). -/
def tick (e : TickEnv) (kinOf : Nat → KinOut) (st : Store) : Store :=
  let aircraft_list := StateManager.get_active_arrivals st "ENGINE"
  aircraft_list.foldl (fun s a => process_aircraft e (kinOf a.id) s a) st

/-- A run: repeated ticks, each with its own database availability and
kinematics results.  The database state persists across ticks (and, the
store being external, across engine restarts). -/
def run (inputs : List (TickEnv × (Nat → KinOut))) (st : Store) : Store :=
  inputs.foldl (fun s p => tick p.1 p.2 s) st

end Engine

/-! ## SpawnListener (engine/spawn_listener.py) -/

namespace SpawnListener

/-- The fields of the `aircraft` object inside an `aircraft.created`
payload that the listener reads (`.get` returns None for a missing id). -/
structure CreatedAircraft where
  id : Option Nat
  flight_type : String
deriving DecidableEq, Repr

/-- SpawnListener.process_aircraft_created_event: non-arrivals return
with no state change; arrivals get controller=ENGINE, phase=CRUISE and
— when that update reports success — the engine-assigned event row via
the `on_aircraft_spawned` callback (core_engine.py lines 102-126). -/
def process_aircraft_created_event (updDbOk evDbOk : Bool) (st : Store)
    (aircraft : CreatedAircraft) : Store :=
  if aircraft.flight_type ≠ "ARRIVAL" then st
  else
    let r := StateManager.update_aircraft_state updDbOk st aircraft.id
      [("controller", FieldVal.vStr "ENGINE"),
       ("phase", FieldVal.vStr "CRUISE")]
    if r.2 then
      (StateManager.create_event evDbOk r.1
        { level := "INFO", type := "aircraft.engine_assigned",
          aircraft_id := aircraft.id, sector := "ENGINE",
          direction := "SYS" }).1
    else r.1

/-- One message as seen by the listen loop: either text that fails JSON
decoding, or a decoded payload with its `type` and the `data.aircraft`
fields. -/
inductive BusMessage where
  | malformed
  | valid (type : String) (aircraft : CreatedAircraft)

/-- The body of SpawnListener.listen_async for one received message:
malformed JSON is dropped silently, only `aircraft.created` payloads are
processed. -/
def handle_message (updDbOk evDbOk : Bool) (st : Store) (m : BusMessage) :
    Store :=
  match m with
  | .malformed => st
  | .valid t a =>
      if t = "aircraft.created" then
        process_aircraft_created_event updDbOk evDbOk st a
      else st

end SpawnListener

/-! ## Concrete sample data for the closed runs below -/

/-- A concrete active arrival controlled by the engine, no threshold fired
yet. -/
def sampleRow : AircraftRow :=
  { id := 1, callsign := "ACA101", flight_type := "ARRIVAL",
    status := "active", controller := "ENGINE", phase := "CRUISE",
    last_event_fired := "", position := ⟨43, -79, 600, 150, 90⟩,
    target_speed_kts := none, target_heading_deg := none,
    target_altitude_ft := none, vertical_speed_fpm := 0 }

/-- A store holding just `sampleRow` and no events. -/
def sampleStore : Store := { aircraft := [sampleRow], events := [] }

/-- All database operations available. -/
def envAllOk : Engine.TickEnv := ⟨true, true, true⟩

/-- The end-of-tick state write fails; everything else is available. -/
def envWriteFail : Engine.TickEnv := ⟨true, true, false⟩

/-- Kinematics output putting the sample aircraft at 2 NM and 600 ft MSL,
i.e. 31 ft AGL — below the touchdown threshold. -/
def kinTouchdown : KinOut := ⟨43, -79, 600, 150, 90, -500, 2⟩

/-- Kinematics output putting the sample aircraft at 19 NM (inside both
the 30 NM and the 20 NM rings) at 10000 ft MSL. -/
def kinHandoff : KinOut := ⟨44, -79, 10000, 300, 180, 0, 19⟩

/-- The touchdown event row for the sample aircraft. -/
def tdEvent : EventRow := ⟨"INFO", "aircraft.touchdown", some 1, "TWR", "SYS"⟩

/-- The handoff-ready event row for the sample aircraft. -/
def hoEvent : EventRow := ⟨"INFO", "aircraft.handoff_ready", some 1, "APP", "SYS"⟩

/-- The entry-zone event row for the sample aircraft. -/
def ezEvent : EventRow := ⟨"INFO", "aircraft.entered_entry_zone", some 1, "CTR", "SYS"⟩

/-- `sampleRow` after the tick that fires HANDOFF_READY. -/
def rowAfterHandoff : AircraftRow :=
  { sampleRow with
      position := ⟨44, -79, 10000, 300, 180⟩,
      vertical_speed_fpm := 0, phase := "DESCENT",
      last_event_fired := "HANDOFF_READY" }

/-- `rowAfterHandoff` after the next tick, which fires ENTERED_ENTRY_ZONE. -/
def rowAfterBoth : AircraftRow :=
  { rowAfterHandoff with last_event_fired := "HANDOFF_READY,ENTERED_ENTRY_ZONE" }

/-- An aircraft already controlled by ENGINE, in phase DESCENT. -/
def engineRowDescent : AircraftRow := { sampleRow with phase := "DESCENT" }

/-- A store holding just `engineRowDescent`. -/
def engineStore : Store := { aircraft := [engineRowDescent], events := [] }

/-! ## Helper lemmas: clip and the wrap functions -/

theorem clip_lower (v a b : ℚ) : a ≤ clip v a b :=
  le_max_left a (min b v)

theorem clip_upper (v : ℚ) {a b : ℚ} (h : a ≤ b) : clip v a b ≤ b :=
  max_le h (min_le_left b v)

theorem clip_abs_le (v : ℚ) {c : ℚ} (h : 0 ≤ c) : |clip v (-c) c| ≤ c :=
  abs_le.mpr ⟨clip_lower v (-c) c, clip_upper v (by linarith)⟩

theorem wrap360_eq_fract (x : ℚ) : wrap360 x = 360 * Int.fract (x / 360) := by
  unfold wrap360 Int.fract
  ring

theorem wrap360_nonneg (x : ℚ) : 0 ≤ wrap360 x := by
  rw [wrap360_eq_fract]
  have h := Int.fract_nonneg (x / 360)
  linarith

theorem wrap360_lt_360 (x : ℚ) : wrap360 x < 360 := by
  rw [wrap360_eq_fract]
  have h := Int.fract_lt_one (x / 360)
  linarith

theorem wrapPm180_mem (x : ℚ) : -180 ≤ wrapPm180 x ∧ wrapPm180 x ≤ 180 := by
  unfold wrapPm180
  split_ifs with h1 h2
  · have hle : (x - 180) / 360 ≤ (⌈(x - 180) / 360⌉ : ℚ) := Int.le_ceil _
    have hlt : ((⌈(x - 180) / 360⌉ : ℚ)) < (x - 180) / 360 + 1 :=
      Int.ceil_lt_add_one _
    have hq : 360 * ((x - 180) / 360) = x - 180 := by ring
    constructor <;> linarith
  · have hle : (-180 - x) / 360 ≤ (⌈(-180 - x) / 360⌉ : ℚ) := Int.le_ceil _
    have hlt : ((⌈(-180 - x) / 360⌉ : ℚ)) < (-180 - x) / 360 + 1 :=
      Int.ceil_lt_add_one _
    have hq : 360 * ((-180 - x) / 360) = -180 - x := by ring
    constructor <;> linarith
  · constructor <;> linarith

theorem wrapPm180_sub_int (x : ℚ) : ∃ k : ℤ, wrapPm180 x = x - 360 * k := by
  unfold wrapPm180
  split_ifs
  · exact ⟨⌈(x - 180) / 360⌉, rfl⟩
  · refine ⟨-⌈(-180 - x) / 360⌉, ?_⟩
    push_cast
    ring
  · exact ⟨0, by norm_num⟩

/-- The key reduction fact: any value congruent mod 360 to a `d` strictly
inside the interval comes back to `d` exactly. -/
theorem wrapPm180_reduce {d : ℚ} (k : ℤ) (h1 : -180 < d) (h2 : d < 180) :
    wrapPm180 (d + 360 * k) = d := by
  obtain ⟨l, hl⟩ := wrapPm180_sub_int (d + 360 * k)
  obtain ⟨hm1, hm2⟩ := wrapPm180_mem (d + 360 * k)
  have hkl : wrapPm180 (d + 360 * k) - d = 360 * (((k - l : ℤ) : ℚ)) := by
    rw [hl]
    push_cast
    ring
  have hb1 : (-1 : ℚ) < ((k - l : ℤ) : ℚ) := by
    nlinarith [hkl, hm1, hm2]
  have hb2 : ((k - l : ℤ) : ℚ) < 1 := by
    nlinarith [hkl, hm1, hm2]
  have hz : (k - l : ℤ) = 0 := by
    have hb1i : (-1 : ℤ) < k - l := by exact_mod_cast hb1
    have hb2i : (k - l : ℤ) < 1 := by exact_mod_cast hb2
    omega
  have : wrapPm180 (d + 360 * k) - d = 0 := by
    rw [hkl, hz]
    norm_num
  linarith

/-! ## Helper lemmas: speed and altitude envelopes -/

theorem update_speed_mem (v t dt : ℚ) :
    DEFAULT_MIN_SPEED_KTS ≤ update_speed v t dt
    ∧ update_speed v t dt ≤ DEFAULT_MAX_SPEED_KTS := by
  unfold update_speed
  refine ⟨clip_lower _ _ _, clip_upper _ ?_⟩
  norm_num [DEFAULT_MIN_SPEED_KTS, DEFAULT_MAX_SPEED_KTS]

/-- Clamping `v + d` back into an interval containing `v` cannot move
farther from `v` than `d` did. -/
theorem clip_add_sub_bounds {v d lo hi l u : ℚ} (hv1 : lo ≤ v) (hv2 : v ≤ hi)
    (hd1 : -l ≤ d) (hd2 : d ≤ u) (hl : 0 ≤ l) (hu : 0 ≤ u) :
    -l ≤ clip (v + d) lo hi - v ∧ clip (v + d) lo hi - v ≤ u := by
  unfold clip
  rcases le_total (v + d) hi with hhi | hhi
  · rw [min_eq_right hhi]
    rcases le_total lo (v + d) with hlo | hlo
    · rw [max_eq_right hlo]
      constructor <;> linarith
    · rw [max_eq_left hlo]
      constructor <;> linarith
  · rw [min_eq_left hhi, max_eq_right (le_trans hv1 hv2)]
    constructor <;> linarith

theorem add_clip_nonneg {c t A B : ℚ} (hc : 0 ≤ c) (ht : 0 ≤ t) (hB : 0 ≤ B) :
    0 ≤ c + max A (min B (t - c)) := by
  rcases le_total (t - c) B with h | h
  · rw [min_eq_right h]
    have h2 := le_max_right A (t - c)
    rcases le_total (t - c) 0 with h3 | h3 <;> linarith
  · rw [min_eq_left h]
    have h2 := le_max_right A B
    linarith

theorem update_altitude_nonneg {c t dist dt : ℚ} (appr : Bool)
    (hc : 0 ≤ c) (ht : 0 ≤ t) (hdt : 0 ≤ dt) :
    0 ≤ (update_altitude c t dist appr dt).1 := by
  unfold update_altitude clip
  dsimp only
  refine add_clip_nonneg hc ht (mul_nonneg (div_nonneg ?_ (by norm_num)) hdt)
  split_ifs <;> norm_num [H_DOT_DESCENT_MAX_APPROACH, H_DOT_CLIMB_MAX]

/-- On approach the vertical speed reported by update_altitude is capped
at 1800 fpm in magnitude. -/
theorem update_altitude_vs_bound_approach {c t dist dt : ℚ} (hdt : 0 < dt) :
    |(update_altitude c t dist true dt).2| ≤ H_DOT_DESCENT_MAX_APPROACH := by
  unfold update_altitude
  simp only [Bool.true_or, if_pos]
  have hm : (0:ℚ) ≤ H_DOT_DESCENT_MAX_APPROACH / 60 * dt := by
    have : (0:ℚ) ≤ H_DOT_DESCENT_MAX_APPROACH / 60 := by
      norm_num [H_DOT_DESCENT_MAX_APPROACH]
    exact mul_nonneg this (le_of_lt hdt)
  have habs := clip_abs_le (t - c) hm
  have hne : dt ≠ 0 := ne_of_gt hdt
  rw [abs_mul, abs_div, abs_of_pos hdt]
  have h60 : |(60:ℚ)| = 60 := by norm_num
  rw [h60]
  calc |clip (t - c) (-(H_DOT_DESCENT_MAX_APPROACH / 60 * dt))
          (H_DOT_DESCENT_MAX_APPROACH / 60 * dt)| / dt * 60
      ≤ (H_DOT_DESCENT_MAX_APPROACH / 60 * dt) / dt * 60 := by gcongr
    _ = H_DOT_DESCENT_MAX_APPROACH := by
        field_simp
        ring

theorem calculate_max_turn_rate_nonneg {K : ℚ} (v : ℚ) (hK : 0 ≤ K) :
    0 ≤ calculate_max_turn_rate K v := by
  unfold calculate_max_turn_rate
  dsimp only
  split_ifs with h
  · exact le_refl _
  · push_neg at h
    exact div_nonneg hK (by linarith)

/-! ## Claim C6 -/

/-- Claim C6, counterexample.  With an explicit negative target altitude
(an input state the claim quantifies over), one kinematics tick drives
the altitude to -40 ft: there is no clamp to the boundary, refuting both
the altitude invariant and the claimed clamping. -/
theorem C6_counterexample :
    (Kinematics.update_aircraft_state (fun _ _ => 35) (fun x y _ _ _ => (x, y))
      0 0 0 0 ⟨43, -79, 10, 300, 100, some 180, none, some (-10000)⟩
      1).altitude_ft = -40
    ∧ ¬ (0 ≤ (Kinematics.update_aircraft_state (fun _ _ => 35)
      (fun x y _ _ _ => (x, y)) 0 0 0 0
      ⟨43, -79, 10, 300, 100, some 180, none, some (-10000)⟩ 1).altitude_ft) := by
  have h : (Kinematics.update_aircraft_state (fun _ _ => 35)
      (fun x y _ _ _ => (x, y)) 0 0 0 0
      ⟨43, -79, 10, 300, 100, some 180, none, some (-10000)⟩ 1).altitude_ft
      = -40 := by
    norm_num [Kinematics.update_aircraft_state, update_altitude, clip, min_def,
      max_def, H_DOT_DESCENT_MAX_APPROACH, H_DOT_CLIMB_MAX, H_DOT_DESCENT_MAX]
  refine ⟨h, ?_⟩
  rw [h]
  norm_num

/-- Claim C6, amended.  After any kinematics tick the heading is in
[0, 360) and the speed is in [140, 550] for every input state; the
altitude stays nonnegative only under nonnegative inputs (current
altitude, glideslope slope, distance, time step, and any explicit target
altitude) — there is no clamp, so a negative target drives it negative
(see the counterexample). -/
theorem C6_amended_thm :
    ∀ (distOf : ℚ → ℚ → ℚ) (updatePos : ℚ → ℚ → ℚ → ℚ → ℚ → ℚ × ℚ)
      (gtanDeg slope driftS driftH : ℚ) (a : KinState) (dt : ℚ),
      let r := Kinematics.update_aircraft_state distOf updatePos gtanDeg slope
        driftS driftH a dt
      (0 ≤ r.heading ∧ r.heading < 360)
      ∧ (DEFAULT_MIN_SPEED_KTS ≤ r.speed_kts ∧ r.speed_kts ≤ DEFAULT_MAX_SPEED_KTS)
      ∧ (0 ≤ a.altitude_ft → 0 ≤ slope → 0 ≤ distOf a.lat a.lon → 0 ≤ dt →
          (∀ t, a.target_altitude_ft = some t → 0 ≤ t) → 0 ≤ r.altitude_ft) := by
  intro distOf updatePos gtanDeg slope driftS driftH a dt
  refine ⟨?_, ?_, ?_⟩
  · cases h : a.target_heading_deg with
    | some t =>
        simp only [Kinematics.update_aircraft_state, h, update_heading]
        exact ⟨wrap360_nonneg _, wrap360_lt_360 _⟩
    | none =>
        simp only [Kinematics.update_aircraft_state, h, apply_random_drift, if_pos]
        exact ⟨wrap360_nonneg _, wrap360_lt_360 _⟩
  · cases h : a.target_speed_kts with
    | some t =>
        simp only [Kinematics.update_aircraft_state, h]
        exact update_speed_mem _ _ _
    | none =>
        simp only [Kinematics.update_aircraft_state, h]
        refine ⟨clip_lower _ _ _, clip_upper _ ?_⟩
        norm_num [DEFAULT_MIN_SPEED_KTS, DEFAULT_MAX_SPEED_KTS]
  · intro halt hslope hdist hdt htgt
    cases h : a.target_altitude_ft with
    | some t =>
        simp only [Kinematics.update_aircraft_state, h]
        exact update_altitude_nonneg _ halt (htgt t h) hdt
    | none =>
        by_cases hd : distOf a.lat a.lon < 30
        · simp only [Kinematics.update_aircraft_state, h, if_pos hd]
          refine update_altitude_nonneg _ halt ?_ hdt
          unfold calculate_glideslope_altitude
          dsimp only
          have hm := mul_nonneg hslope hdist
          norm_num [CYYZ_ELEVATION_FT, FT_PER_NM]
          nlinarith
        · simp only [Kinematics.update_aircraft_state, h, if_neg hd]
          exact halt

/-- Claim C6, witness: the amended theorem applied to a concrete drift-mode
state at 35 NM. -/
theorem C6_amended_witness :
    (0 ≤ (Kinematics.update_aircraft_state (fun _ _ => 35)
        (fun x y _ _ _ => (x, y)) 0 0 0 0
        ⟨43, -79, 10000, 300, 100, none, none, none⟩ 1).heading
      ∧ (Kinematics.update_aircraft_state (fun _ _ => 35)
        (fun x y _ _ _ => (x, y)) 0 0 0 0
        ⟨43, -79, 10000, 300, 100, none, none, none⟩ 1).heading < 360)
    ∧ (DEFAULT_MIN_SPEED_KTS ≤ (Kinematics.update_aircraft_state (fun _ _ => 35)
        (fun x y _ _ _ => (x, y)) 0 0 0 0
        ⟨43, -79, 10000, 300, 100, none, none, none⟩ 1).speed_kts
      ∧ (Kinematics.update_aircraft_state (fun _ _ => 35)
        (fun x y _ _ _ => (x, y)) 0 0 0 0
        ⟨43, -79, 10000, 300, 100, none, none, none⟩ 1).speed_kts
        ≤ DEFAULT_MAX_SPEED_KTS)
    ∧ 0 ≤ (Kinematics.update_aircraft_state (fun _ _ => 35)
        (fun x y _ _ _ => (x, y)) 0 0 0 0
        ⟨43, -79, 10000, 300, 100, none, none, none⟩ 1).altitude_ft := by
  have h := C6_amended_thm (fun _ _ => 35) (fun x y _ _ _ => (x, y)) 0 0 0 0
    ⟨43, -79, 10000, 300, 100, none, none, none⟩ 1
  exact ⟨h.1, h.2.1, h.2.2 (by norm_num) (by norm_num) (by norm_num) (by norm_num)
    (fun t ht => by simp at ht)⟩

/-! ## Claim C7 -/

/-- Claim C7, counterexample.  In a drift branch (no speed target) with a
legal drift draw of +5 kt the single-tick speed change is 5 kt, far above
the claimed acceleration bound of 0.6 kt for a 1 s tick. -/
theorem C7_counterexample :
    (Kinematics.update_aircraft_state (fun _ _ => 35) (fun x y _ _ _ => (x, y))
      0 0 5 0 ⟨43, -79, 10000, 300, 100, none, none, some 10000⟩
      1).speed_kts - 300 = 5
    ∧ ¬ ((Kinematics.update_aircraft_state (fun _ _ => 35)
      (fun x y _ _ _ => (x, y)) 0 0 5 0
      ⟨43, -79, 10000, 300, 100, none, none, some 10000⟩ 1).speed_kts - 300
        ≤ A_ACC_MAX * 1) := by
  have h : (Kinematics.update_aircraft_state (fun _ _ => 35)
      (fun x y _ _ _ => (x, y)) 0 0 5 0
      ⟨43, -79, 10000, 300, 100, none, none, some 10000⟩ 1).speed_kts = 305 := by
    norm_num [Kinematics.update_aircraft_state, apply_random_drift, clip,
      min_def, max_def, DEFAULT_MIN_SPEED_KTS, DEFAULT_MAX_SPEED_KTS]
  rw [h]
  norm_num [A_ACC_MAX]

/-- Claim C7, amended.  Starting from a speed inside [140, 550]: when a
speed target is present the single-tick speed change is within
[-0.8 dt, +0.6 dt]; when it is absent the change is only bounded by the
drift amplitude of 5 kt.  The new heading is always a wrap of the old
heading plus a delta bounded by the bank-limited turn rate times dt when
a heading target is present, and by the 2 deg drift amplitude when it is
absent. -/
theorem C7_amended_thm :
    ∀ (distOf : ℚ → ℚ → ℚ) (updatePos : ℚ → ℚ → ℚ → ℚ → ℚ → ℚ × ℚ)
      (gtanDeg slope driftS driftH : ℚ) (a : KinState) (dt : ℚ),
      DEFAULT_MIN_SPEED_KTS ≤ a.speed_kts → a.speed_kts ≤ DEFAULT_MAX_SPEED_KTS →
      0 ≤ dt → |driftS| ≤ DRIFT_SPEED_KT → |driftH| ≤ DRIFT_HEADING_DEG →
      0 ≤ gtanDeg →
      let r := Kinematics.update_aircraft_state distOf updatePos gtanDeg slope
        driftS driftH a dt
      ((a.target_speed_kts ≠ none →
          -(A_DEC_MAX * dt) ≤ r.speed_kts - a.speed_kts
          ∧ r.speed_kts - a.speed_kts ≤ A_ACC_MAX * dt)
       ∧ (a.target_speed_kts = none → |r.speed_kts - a.speed_kts| ≤ DRIFT_SPEED_KT)
       ∧ (∃ d : ℚ, r.heading = wrap360 (a.heading + d)
            ∧ (a.target_heading_deg ≠ none →
                |d| ≤ calculate_max_turn_rate gtanDeg a.speed_kts * dt)
            ∧ (a.target_heading_deg = none → |d| ≤ DRIFT_HEADING_DEG))) := by
  intro distOf updatePos gtanDeg slope driftS driftH a dt hv1 hv2 hdt hdS hdH hK
  refine ⟨?_, ?_, ?_⟩
  · intro hne
    cases h : a.target_speed_kts with
    | none => exact absurd h hne
    | some t =>
        simp only [Kinematics.update_aircraft_state, h, update_speed]
        have hd1 := clip_lower (t - a.speed_kts) (-(A_DEC_MAX * dt)) (A_ACC_MAX * dt)
        have h1 : (0:ℚ) ≤ A_DEC_MAX * dt :=
          mul_nonneg (by norm_num [A_DEC_MAX]) hdt
        have h2 : (0:ℚ) ≤ A_ACC_MAX * dt :=
          mul_nonneg (by norm_num [A_ACC_MAX]) hdt
        have hd2 : clip (t - a.speed_kts) (-(A_DEC_MAX * dt)) (A_ACC_MAX * dt)
            ≤ A_ACC_MAX * dt := clip_upper _ (by linarith)
        exact clip_add_sub_bounds hv1 hv2 hd1 hd2 h1 h2
  · intro h
    simp only [Kinematics.update_aircraft_state, h, apply_random_drift]
    obtain ⟨hd1, hd2⟩ := abs_le.mp hdS
    have hb := clip_add_sub_bounds hv1 hv2 hd1 hd2
      (by norm_num [DRIFT_SPEED_KT]) (by norm_num [DRIFT_SPEED_KT])
    simpa [abs_le] using hb
  · cases h : a.target_heading_deg with
    | some t =>
        refine ⟨clip (wrapPm180 (t - a.heading))
          (-(calculate_max_turn_rate gtanDeg a.speed_kts * dt))
          (calculate_max_turn_rate gtanDeg a.speed_kts * dt), ?_, ?_, ?_⟩
        · simp only [Kinematics.update_aircraft_state, h, update_heading]
        · intro _
          exact clip_abs_le _ (mul_nonneg (calculate_max_turn_rate_nonneg _ hK) hdt)
        · intro hc
          exact absurd hc (by simp)
    | none =>
        refine ⟨driftH, ?_, ?_, ?_⟩
        · simp [Kinematics.update_aircraft_state, h, apply_random_drift]
        · intro hc
          exact absurd rfl hc
        · intro _
          exact hdH

/-- Claim C7, witness: the amended theorem applied to a concrete state
with both targets present. -/
theorem C7_amended_witness :
    (-(A_DEC_MAX * 1) ≤ (Kinematics.update_aircraft_state (fun _ _ => 35)
        (fun x y _ _ _ => (x, y)) 1 0 0 0
        ⟨43, -79, 10000, 300, 100, some 250, some 120, some 5000⟩ 1).speed_kts - 300
      ∧ (Kinematics.update_aircraft_state (fun _ _ => 35)
        (fun x y _ _ _ => (x, y)) 1 0 0 0
        ⟨43, -79, 10000, 300, 100, some 250, some 120, some 5000⟩ 1).speed_kts - 300
        ≤ A_ACC_MAX * 1)
    ∧ (∃ d : ℚ, (Kinematics.update_aircraft_state (fun _ _ => 35)
        (fun x y _ _ _ => (x, y)) 1 0 0 0
        ⟨43, -79, 10000, 300, 100, some 250, some 120, some 5000⟩ 1).heading
          = wrap360 (100 + d)
        ∧ ((some (120:ℚ)) ≠ none → |d| ≤ calculate_max_turn_rate 1 300 * 1)
        ∧ ((some (120:ℚ)) = none → |d| ≤ DRIFT_HEADING_DEG)) := by
  have h := C7_amended_thm (fun _ _ => 35) (fun x y _ _ _ => (x, y)) 1 0 0 0
    ⟨43, -79, 10000, 300, 100, some 250, some 120, some 5000⟩ 1
    (by norm_num [DEFAULT_MIN_SPEED_KTS]) (by norm_num [DEFAULT_MAX_SPEED_KTS])
    (by norm_num) (by norm_num [DRIFT_SPEED_KT]) (by norm_num [DRIFT_HEADING_DEG])
    (by norm_num)
  exact ⟨h.1 (by simp), h.2.2⟩

/-! ## Claim C8 -/

/-- Claim C8, counterexample.  At heading 270 and offset d = 180 (the top
end of the claimed interval), heading_difference returns -180, not 180:
the round-trip identity fails at d = 180 and the range is [-180, 180],
not (-180, 180]. -/
theorem C8_counterexample :
    heading_difference 270 (pymod (270 + 180) 360) = -180
    ∧ heading_difference 270 (pymod (270 + 180) 360) ≠ 180 := by
  have hm : pymod (270 + 180 : ℚ) 360 = 90 := by
    unfold pymod
    norm_num
  rw [hm]
  have hd : heading_difference 270 (90:ℚ) = -180 := by
    unfold heading_difference wrapPm180
    norm_num
  rw [hd]
  norm_num

/-- Claim C8, amended.  The round-trip identity
heading_difference(h, (h + d) mod 360) = d holds for d strictly inside
(-180, 180) (it fails at d = 180), and the signed difference always lies
in the closed interval [-180, 180]. -/
theorem C8_amended_thm :
    (∀ h d : ℚ, -180 < d → d < 180 →
      heading_difference h (pymod (h + d) 360) = d)
    ∧ (∀ current target : ℚ,
        -180 ≤ heading_difference current target
        ∧ heading_difference current target ≤ 180) := by
  constructor
  · intro h d h1 h2
    unfold heading_difference pymod
    have harg : h + d - 360 * ((⌊(h + d) / 360⌋ : ℤ) : ℚ) - h
        = d + 360 * (((-⌊(h + d) / 360⌋ : ℤ)) : ℚ) := by
      push_cast
      ring
    rw [harg]
    exact wrapPm180_reduce _ h1 h2
  · intro c t
    exact wrapPm180_mem _

/-- Claim C8, witness: the amended theorem applied at heading 10 with
offset 90, and at the pair (350, 20). -/
theorem C8_amended_witness :
    heading_difference 10 (pymod (10 + 90) 360) = 90
    ∧ (-180 ≤ heading_difference 350 20 ∧ heading_difference 350 20 ≤ 180) :=
  ⟨C8_amended_thm.1 10 90 (by norm_num) (by norm_num), C8_amended_thm.2 350 20⟩

/-! ## Claim C9 -/

/-- Claim C9, confirmed.  The glideslope target altitude is
THR + 6076 * slope * D for every distance, returns exactly the field
elevation at D = 0, and whenever no altitude target is set and the
distance is below 30 NM the per-tick update tracks the glideslope target
under the approach caps, so the produced vertical speed is at most
1800 fpm in magnitude. -/
theorem C9_thm :
    (∀ slope d : ℚ,
      calculate_glideslope_altitude slope d
        = CYYZ_ELEVATION_FT + FT_PER_NM * slope * d)
    ∧ (∀ slope : ℚ, calculate_glideslope_altitude slope 0 = CYYZ_ELEVATION_FT)
    ∧ (∀ (distOf : ℚ → ℚ → ℚ) (updatePos : ℚ → ℚ → ℚ → ℚ → ℚ → ℚ × ℚ)
        (gtanDeg slope driftS driftH : ℚ) (a : KinState) (dt : ℚ),
        0 < dt → a.target_altitude_ft = none → distOf a.lat a.lon < 30 →
        let r := Kinematics.update_aircraft_state distOf updatePos gtanDeg slope
          driftS driftH a dt
        r.altitude_ft = (update_altitude a.altitude_ft
            (calculate_glideslope_altitude slope (distOf a.lat a.lon))
            (distOf a.lat a.lon) true dt).1
        ∧ r.vertical_speed_fpm = (update_altitude a.altitude_ft
            (calculate_glideslope_altitude slope (distOf a.lat a.lon))
            (distOf a.lat a.lon) true dt).2
        ∧ |r.vertical_speed_fpm| ≤ H_DOT_DESCENT_MAX_APPROACH) := by
  refine ⟨?_, ?_, ?_⟩
  · intro slope d
    unfold calculate_glideslope_altitude
    ring
  · intro slope
    unfold calculate_glideslope_altitude
    ring
  · intro distOf updatePos gtanDeg slope driftS driftH a dt hdt hnone hd
    refine ⟨?_, ?_, ?_⟩
    · simp only [Kinematics.update_aircraft_state, hnone, if_pos hd]
    · simp only [Kinematics.update_aircraft_state, hnone, if_pos hd]
    · simp only [Kinematics.update_aircraft_state, hnone, if_pos hd]
      exact update_altitude_vs_bound_approach hdt

/-- Claim C9, witness: the theorem applied at slope 1, distance 2, and to
a concrete aircraft at 15 NM with no altitude target. -/
theorem C9_witness :
    calculate_glideslope_altitude 1 2 = CYYZ_ELEVATION_FT + FT_PER_NM * 1 * 2
    ∧ calculate_glideslope_altitude 1 0 = CYYZ_ELEVATION_FT
    ∧ ((Kinematics.update_aircraft_state (fun _ _ => 15)
          (fun x y _ _ _ => (x, y)) 0 1 0 0
          ⟨43, -79, 5000, 180, 100, none, none, none⟩ 1).altitude_ft
        = (update_altitude 5000 (calculate_glideslope_altitude 1 15) 15 true 1).1
      ∧ (Kinematics.update_aircraft_state (fun _ _ => 15)
          (fun x y _ _ _ => (x, y)) 0 1 0 0
          ⟨43, -79, 5000, 180, 100, none, none, none⟩ 1).vertical_speed_fpm
        = (update_altitude 5000 (calculate_glideslope_altitude 1 15) 15 true 1).2
      ∧ |(Kinematics.update_aircraft_state (fun _ _ => 15)
          (fun x y _ _ _ => (x, y)) 0 1 0 0
          ⟨43, -79, 5000, 180, 100, none, none, none⟩ 1).vertical_speed_fpm|
        ≤ H_DOT_DESCENT_MAX_APPROACH) := by
  refine ⟨C9_thm.1 1 2, C9_thm.2.1 1, ?_⟩
  exact C9_thm.2.2 (fun _ _ => 15) (fun x y _ _ _ => (x, y)) 0 1 0 0
    ⟨43, -79, 5000, 180, 100, none, none, none⟩ 1 (by norm_num) rfl (by norm_num)

/-! ## Helper lemmas: store effects and the threshold machine -/

theorem update_aircraft_state_events (ok : Bool) (st : Store) (i : Option Nat)
    (u : List (String × FieldVal)) :
    ((StateManager.update_aircraft_state ok st i u).1).events = st.events := by
  simp only [StateManager.update_aircraft_state]
  split_ifs <;> rfl

theorem create_event_aircraft (ok : Bool) (st : Store) (ev : EventRow) :
    ((StateManager.create_event ok st ev).1).aircraft = st.aircraft := by
  cases ok <;> rfl

theorem create_event_events_le (ok : Bool) (st : Store) (ev : EventRow) :
    ((StateManager.create_event ok st ev).1).events.length
      ≤ st.events.length + 1 := by
  cases ok
  · exact Nat.le_succ _
  · simp [StateManager.create_event]

/-- mark_touchdown always fails and leaves the store untouched: "status"
is not in the update whitelist, so the key is skipped while its parameter
index is consumed, the remaining placeholders no longer match the bound
values, and the UPDATE statement is rejected. -/
theorem mark_touchdown_spec (ok : Bool) (st : Store) (i : Nat) :
    StateManager.mark_touchdown ok st i = (st, false) := by
  cases ok <;> rfl

theorem persistState_events (e : Engine.TickEnv) (st : Store) (a : AircraftRow)
    (kin : KinOut) (ph : String) (ne : Option String) :
    (Engine.persistState e st a kin ph ne).events = st.events := by
  unfold Engine.persistState
  cases ne <;> exact update_aircraft_state_events _ _ _ _

theorem persistState_fail (m ev : Bool) (st : Store) (a : AircraftRow)
    (kin : KinOut) (ph : String) (ne : Option String) :
    Engine.persistState ⟨m, ev, false⟩ st a kin ph ne = st := by
  cases ne <;> rfl

theorem firedTag_cases (l : String) (d agl : ℚ) :
    Engine.firedTag l d agl = none
    ∨ Engine.firedTag l d agl = some EVENT_TOUCHDOWN
    ∨ Engine.firedTag l d agl = some EVENT_HANDOFF_READY
    ∨ Engine.firedTag l d agl = some EVENT_ENTERED_ENTRY_ZONE := by
  unfold Engine.firedTag
  split_ifs <;> simp

/-! ## Helper lemmas: concrete tick evaluations -/

theorem firedTag_touchdown_sample :
    Engine.firedTag sampleRow.last_event_fired kinTouchdown.distance_to_airport_nm
      (altitude_msl_to_agl kinTouchdown.altitude_ft CYYZ_ELEVATION_FT)
      = some "TOUCHDOWN" := by
  show Engine.firedTag "" 2 (altitude_msl_to_agl 600 CYYZ_ELEVATION_FT)
    = some "TOUCHDOWN"
  have hagl : altitude_msl_to_agl (600:ℚ) CYYZ_ELEVATION_FT = 31 := by
    norm_num [altitude_msl_to_agl, CYYZ_ELEVATION_FT]
  rw [hagl]
  unfold Engine.firedTag
  split_ifs with h1
  · rfl
  all_goals exact (h1 ⟨by norm_num [TOUCHDOWN_ALTITUDE_FT], by decide⟩).elim

theorem firedTag_handoff_sample :
    Engine.firedTag sampleRow.last_event_fired kinHandoff.distance_to_airport_nm
      (altitude_msl_to_agl kinHandoff.altitude_ft CYYZ_ELEVATION_FT)
      = some "HANDOFF_READY" := by
  show Engine.firedTag "" 19 (altitude_msl_to_agl 10000 CYYZ_ELEVATION_FT)
    = some "HANDOFF_READY"
  have hagl : altitude_msl_to_agl (10000:ℚ) CYYZ_ELEVATION_FT = 9431 := by
    norm_num [altitude_msl_to_agl, CYYZ_ELEVATION_FT]
  rw [hagl]
  unfold Engine.firedTag
  split_ifs with h1 h2
  · exact absurd h1 (by rintro ⟨hlt, -⟩; norm_num [TOUCHDOWN_ALTITUDE_FT] at hlt)
  · rfl
  all_goals exact
    (h2 ⟨by norm_num [HANDOFF_READY_THRESHOLD_NM], by decide⟩).elim

theorem firedTag_entry_sample :
    Engine.firedTag rowAfterHandoff.last_event_fired
      kinHandoff.distance_to_airport_nm
      (altitude_msl_to_agl kinHandoff.altitude_ft CYYZ_ELEVATION_FT)
      = some "ENTERED_ENTRY_ZONE" := by
  show Engine.firedTag "HANDOFF_READY" 19 (altitude_msl_to_agl 10000 CYYZ_ELEVATION_FT)
    = some "ENTERED_ENTRY_ZONE"
  have hagl : altitude_msl_to_agl (10000:ℚ) CYYZ_ELEVATION_FT = 9431 := by
    norm_num [altitude_msl_to_agl, CYYZ_ELEVATION_FT]
  rw [hagl]
  unfold Engine.firedTag
  split_ifs with h1 h2 h3
  · exact absurd h1 (by rintro ⟨hlt, -⟩; norm_num [TOUCHDOWN_ALTITUDE_FT] at hlt)
  · exact absurd h2 (by rintro ⟨-, hpy⟩; exact absurd hpy (by decide))
  · rfl
  · exact (h3 ⟨by norm_num [ENTRY_ZONE_THRESHOLD_NM], by decide⟩).elim

theorem process_touchdown_eval (evs : List EventRow) :
    Engine.process_aircraft envAllOk kinTouchdown ⟨[sampleRow], evs⟩ sampleRow
      = ⟨[sampleRow], evs ++ [tdEvent]⟩ := by
  simp only [Engine.process_aircraft]
  rw [firedTag_touchdown_sample]
  rfl

theorem tick_touchdown_eval (evs : List EventRow) :
    Engine.tick envAllOk (fun _ => kinTouchdown) ⟨[sampleRow], evs⟩
      = ⟨[sampleRow], evs ++ [tdEvent]⟩ := by
  unfold Engine.tick
  have hga : StateManager.get_active_arrivals ⟨[sampleRow], evs⟩ "ENGINE"
      = [sampleRow] := rfl
  rw [hga]
  simp only [List.foldl_cons, List.foldl_nil]
  exact process_touchdown_eval evs

theorem process_handoff_eval (evs : List EventRow) :
    Engine.process_aircraft envAllOk kinHandoff ⟨[sampleRow], evs⟩ sampleRow
      = ⟨[rowAfterHandoff], evs ++ [hoEvent]⟩ := by
  simp only [Engine.process_aircraft]
  rw [firedTag_handoff_sample]
  have hph : Engine.determine_phase kinHandoff.distance_to_airport_nm
      (altitude_msl_to_agl kinHandoff.altitude_ft CYYZ_ELEVATION_FT) = "DESCENT" := by
    show Engine.determine_phase 19 (altitude_msl_to_agl 10000 CYYZ_ELEVATION_FT)
      = "DESCENT"
    have hagl : altitude_msl_to_agl (10000:ℚ) CYYZ_ELEVATION_FT = 9431 := by
      norm_num [altitude_msl_to_agl, CYYZ_ELEVATION_FT]
    rw [hagl]
    norm_num [Engine.determine_phase]
  rw [hph]
  rfl

theorem tick_handoff_eval (evs : List EventRow) :
    Engine.tick envAllOk (fun _ => kinHandoff) ⟨[sampleRow], evs⟩
      = ⟨[rowAfterHandoff], evs ++ [hoEvent]⟩ := by
  unfold Engine.tick
  have hga : StateManager.get_active_arrivals ⟨[sampleRow], evs⟩ "ENGINE"
      = [sampleRow] := rfl
  rw [hga]
  simp only [List.foldl_cons, List.foldl_nil]
  exact process_handoff_eval evs

theorem process_entry_eval (evs : List EventRow) :
    Engine.process_aircraft envAllOk kinHandoff ⟨[rowAfterHandoff], evs⟩
      rowAfterHandoff = ⟨[rowAfterBoth], evs ++ [ezEvent]⟩ := by
  simp only [Engine.process_aircraft]
  rw [firedTag_entry_sample]
  have hph : Engine.determine_phase kinHandoff.distance_to_airport_nm
      (altitude_msl_to_agl kinHandoff.altitude_ft CYYZ_ELEVATION_FT) = "DESCENT" := by
    show Engine.determine_phase 19 (altitude_msl_to_agl 10000 CYYZ_ELEVATION_FT)
      = "DESCENT"
    have hagl : altitude_msl_to_agl (10000:ℚ) CYYZ_ELEVATION_FT = 9431 := by
      norm_num [altitude_msl_to_agl, CYYZ_ELEVATION_FT]
    rw [hagl]
    norm_num [Engine.determine_phase]
  rw [hph]
  rfl

theorem tick_entry_eval (evs : List EventRow) :
    Engine.tick envAllOk (fun _ => kinHandoff) ⟨[rowAfterHandoff], evs⟩
      = ⟨[rowAfterBoth], evs ++ [ezEvent]⟩ := by
  unfold Engine.tick
  have hga : StateManager.get_active_arrivals ⟨[rowAfterHandoff], evs⟩ "ENGINE"
      = [rowAfterHandoff] := rfl
  rw [hga]
  simp only [List.foldl_cons, List.foldl_nil]
  exact process_entry_eval evs

/-! ## Claim C1 -/

/-- Claim C1, code-bug run.  A two-tick run over an aircraft below 50 ft
AGL with a fully available database creates TWO touchdown event rows and
leaves the aircraft active with TOUCHDOWN never recorded in
last_event_fired: mark_touchdown silently fails (see mark_touchdown_spec)
and the TOUCHDOWN branch returns before persisting the tag, so the
threshold re-fires every tick — the claimed at-most-once property fails. -/
theorem C1_bug_thm :
    ((Engine.run [(envAllOk, fun _ => kinTouchdown), (envAllOk, fun _ => kinTouchdown)]
        sampleStore).events.filter (fun ev => ev.type == "aircraft.touchdown")).length
      = 2
    ∧ (Engine.run [(envAllOk, fun _ => kinTouchdown), (envAllOk, fun _ => kinTouchdown)]
        sampleStore).aircraft = [sampleRow]
    ∧ sampleRow.status = "active"
    ∧ pyIn EVENT_TOUCHDOWN sampleRow.last_event_fired = false := by
  have hrun : Engine.run
      [(envAllOk, fun _ => kinTouchdown), (envAllOk, fun _ => kinTouchdown)]
      sampleStore = ⟨[sampleRow], [tdEvent, tdEvent]⟩ := by
    unfold Engine.run sampleStore
    simp only [List.foldl_cons, List.foldl_nil]
    rw [tick_touchdown_eval]
    rw [show ([] : List EventRow) ++ [tdEvent] = [tdEvent] from rfl]
    rw [tick_touchdown_eval]
    rfl
  rw [hrun]
  exact ⟨rfl, rfl, rfl, by decide⟩

/-! ## Claim C2 -/

/-- Claim C2, code-bug evaluation.  mark_touchdown returns failure and
changes nothing (the "status" key is not whitelisted and the skipped key
shifts the remaining parameter indices, so the UPDATE is rejected); a
mixed update with one unknown key likewise fails as a whole instead of
ignoring the unknown key; an empty update is a no-op success. -/
theorem C2_bug_thm :
    StateManager.mark_touchdown true sampleStore 1 = (sampleStore, false)
    ∧ StateManager.update_aircraft_state true sampleStore (some 1)
        [("bogus_key", FieldVal.vNum 1), ("phase", FieldVal.vStr "APPROACH")]
        = (sampleStore, false)
    ∧ (StateManager.update_aircraft_state true sampleStore (some 1)
        ([] : List (String × FieldVal))).2 = true :=
  ⟨mark_touchdown_spec true sampleStore 1, rfl, rfl⟩

/-! ## Claim C3 -/

/-- Claim C3, counterexample.  In the two-ring scenario the first tick
does fire HANDOFF_READY only, but on the very next tick
ENTERED_ENTRY_ZONE fires and is appended — refuting the claim that it is
never added on any later tick. -/
theorem C3_counterexample :
    (Engine.run [(envAllOk, fun _ => kinHandoff)] sampleStore).aircraft
      = [rowAfterHandoff]
    ∧ rowAfterHandoff.last_event_fired = EVENT_HANDOFF_READY
    ∧ (Engine.run [(envAllOk, fun _ => kinHandoff), (envAllOk, fun _ => kinHandoff)]
        sampleStore).aircraft = [rowAfterBoth]
    ∧ pyIn EVENT_ENTERED_ENTRY_ZONE rowAfterBoth.last_event_fired = true := by
  have h1 : Engine.run [(envAllOk, fun _ => kinHandoff)] sampleStore
      = ⟨[rowAfterHandoff], [hoEvent]⟩ := by
    unfold Engine.run sampleStore
    simp only [List.foldl_cons, List.foldl_nil]
    rw [tick_handoff_eval]
    rfl
  have h2 : Engine.run [(envAllOk, fun _ => kinHandoff), (envAllOk, fun _ => kinHandoff)]
      sampleStore = ⟨[rowAfterBoth], [hoEvent, ezEvent]⟩ := by
    unfold Engine.run sampleStore
    simp only [List.foldl_cons, List.foldl_nil]
    rw [tick_handoff_eval]
    rw [show ([] : List EventRow) ++ [hoEvent] = [hoEvent] from rfl]
    rw [tick_entry_eval]
    rfl
  rw [h1, h2]
  exact ⟨rfl, rfl, rfl, by decide⟩

/-- Claim C3, amended.  At most one threshold event row is created per
aircraft per tick; the selection respects the priority order (TOUCHDOWN
first, then HANDOFF_READY); in the two-ring scenario the first tick fires
HANDOFF_READY only and last_event_fired ends as "HANDOFF_READY" — but the
next tick inside 30 NM fires ENTERED_ENTRY_ZONE and appends it. -/
theorem C3_amended_thm :
    (∀ (e : Engine.TickEnv) (kin : KinOut) (st : Store) (a : AircraftRow),
      (Engine.process_aircraft e kin st a).events.length ≤ st.events.length + 1)
    ∧ (∀ (l : String) (d agl : ℚ), agl < TOUCHDOWN_ALTITUDE_FT →
        pyIn EVENT_TOUCHDOWN l = false →
        Engine.firedTag l d agl = some EVENT_TOUCHDOWN)
    ∧ (∀ (l : String) (d agl : ℚ),
        ¬(agl < TOUCHDOWN_ALTITUDE_FT ∧ pyIn EVENT_TOUCHDOWN l = false) →
        d ≤ HANDOFF_READY_THRESHOLD_NM → pyIn EVENT_HANDOFF_READY l = false →
        Engine.firedTag l d agl = some EVENT_HANDOFF_READY)
    ∧ (Engine.run [(envAllOk, fun _ => kinHandoff)] sampleStore).aircraft
        = [rowAfterHandoff]
    ∧ rowAfterHandoff.last_event_fired = EVENT_HANDOFF_READY
    ∧ (Engine.tick envAllOk (fun _ => kinHandoff) ⟨[rowAfterHandoff], [hoEvent]⟩).aircraft
        = [rowAfterBoth] := by
  refine ⟨?_, ?_, ?_, ?_, rfl, ?_⟩
  · intro e kin st a
    rcases firedTag_cases a.last_event_fired kin.distance_to_airport_nm
        (altitude_msl_to_agl kin.altitude_ft CYYZ_ELEVATION_FT) with h | h | h | h
    · simp only [Engine.process_aircraft, h]
      rw [persistState_events]
      exact Nat.le_succ _
    · simp only [Engine.process_aircraft, h, EVENT_TOUCHDOWN]
      rw [mark_touchdown_spec]
      exact create_event_events_le _ _ _
    · simp only [Engine.process_aircraft, h, EVENT_HANDOFF_READY]
      rw [persistState_events]
      exact create_event_events_le _ _ _
    · simp only [Engine.process_aircraft, h, EVENT_ENTERED_ENTRY_ZONE]
      rw [persistState_events]
      exact create_event_events_le _ _ _
  · intro l d agl h1 h2
    unfold Engine.firedTag
    rw [if_pos ⟨h1, h2⟩]
  · intro l d agl hn h1 h2
    unfold Engine.firedTag
    rw [if_neg hn, if_pos ⟨h1, h2⟩]
  · have h1 : Engine.run [(envAllOk, fun _ => kinHandoff)] sampleStore
        = ⟨[rowAfterHandoff], [hoEvent]⟩ := by
      unfold Engine.run sampleStore
      simp only [List.foldl_cons, List.foldl_nil]
      rw [tick_handoff_eval]
      rfl
    rw [h1]
  · rw [tick_entry_eval]

/-- Claim C3, witness: the per-tick bound, the touchdown-priority fact and
the handoff-priority fact at concrete inputs. -/
theorem C3_amended_witness :
    (Engine.process_aircraft envAllOk kinHandoff sampleStore sampleRow).events.length
      ≤ sampleStore.events.length + 1
    ∧ Engine.firedTag "" 2 31 = some EVENT_TOUCHDOWN
    ∧ Engine.firedTag "" 19 9431 = some EVENT_HANDOFF_READY := by
  have h := C3_amended_thm
  exact ⟨h.1 envAllOk kinHandoff sampleStore sampleRow,
    h.2.1 "" 2 31 (by norm_num [TOUCHDOWN_ALTITUDE_FT]) (by decide),
    h.2.2.1 "" 19 9431
      (by rintro ⟨hlt, -⟩; norm_num [TOUCHDOWN_ALTITUDE_FT] at hlt)
      (by norm_num [HANDOFF_READY_THRESHOLD_NM]) (by decide)⟩

/-! ## Claim C4 -/

/-- Claim C4, counterexample.  With the end-of-tick state write failing,
the HANDOFF_READY tag is indeed not appended to the durable row — but the
corresponding event row has already been inserted before the write, so
"no corresponding event row exists" is false. -/
theorem C4_counterexample :
    envWriteFail.updateDbOk = false
    ∧ Engine.process_aircraft envWriteFail kinHandoff sampleStore sampleRow
        = ⟨[sampleRow], [hoEvent]⟩
    ∧ pyIn EVENT_HANDOFF_READY sampleRow.last_event_fired = false := by
  refine ⟨rfl, ?_, by decide⟩
  simp only [Engine.process_aircraft]
  rw [firedTag_handoff_sample]
  rfl

/-- Claim C4, amended.  When the end-of-tick database write fails, the
aircraft row (hence the durable last_event_fired) is unchanged, but event
row creation precedes the write and is unaffected by its failure: the
events log is exactly what it would have been had the write succeeded. -/
theorem C4_amended_thm :
    ∀ (e : Engine.TickEnv) (kin : KinOut) (st : Store) (a : AircraftRow),
      e.updateDbOk = false →
      (Engine.process_aircraft e kin st a).aircraft = st.aircraft
      ∧ (Engine.process_aircraft e kin st a).events
          = (Engine.process_aircraft ⟨e.markDbOk, e.eventDbOk, true⟩ kin st a).events := by
  intro e kin st a hfail
  obtain ⟨m, ev, u⟩ := e
  simp only at hfail
  subst hfail
  rcases firedTag_cases a.last_event_fired kin.distance_to_airport_nm
      (altitude_msl_to_agl kin.altitude_ft CYYZ_ELEVATION_FT) with h | h | h | h
  · constructor
    · simp only [Engine.process_aircraft, h]
      rw [persistState_fail]
    · simp only [Engine.process_aircraft, h]
      rw [persistState_fail, persistState_events]
  · constructor
    · simp only [Engine.process_aircraft, h, EVENT_TOUCHDOWN]
      rw [mark_touchdown_spec]
      exact create_event_aircraft _ _ _
    · simp only [Engine.process_aircraft, h, EVENT_TOUCHDOWN]
  · constructor
    · simp only [Engine.process_aircraft, h, EVENT_HANDOFF_READY]
      rw [persistState_fail]
      exact create_event_aircraft _ _ _
    · simp only [Engine.process_aircraft, h, EVENT_HANDOFF_READY]
      rw [persistState_fail, persistState_events]
  · constructor
    · simp only [Engine.process_aircraft, h, EVENT_ENTERED_ENTRY_ZONE]
      rw [persistState_fail]
      exact create_event_aircraft _ _ _
    · simp only [Engine.process_aircraft, h, EVENT_ENTERED_ENTRY_ZONE]
      rw [persistState_fail, persistState_events]

/-- Claim C4, witness: the amended theorem at the concrete failing-write
tick. -/
theorem C4_amended_witness :
    (Engine.process_aircraft envWriteFail kinHandoff sampleStore sampleRow).aircraft
      = sampleStore.aircraft
    ∧ (Engine.process_aircraft envWriteFail kinHandoff sampleStore sampleRow).events
      = (Engine.process_aircraft ⟨envWriteFail.markDbOk, envWriteFail.eventDbOk, true⟩
          kinHandoff sampleStore sampleRow).events :=
  C4_amended_thm envWriteFail kinHandoff sampleStore sampleRow rfl

/-! ## Claim C5 -/

/-- Claim C5, counterexample.  At altitude_agl exactly 50 ft (and away
from both distance rings, with no tag yet fired) NO threshold fires: the
touchdown comparison is strict, so the claimed non-strict boundary
behavior fails for TOUCHDOWN. -/
theorem C5_counterexample :
    Engine.firedTag "" 40 TOUCHDOWN_ALTITUDE_FT = none
    ∧ Engine.firedTag "" 40 TOUCHDOWN_ALTITUDE_FT ≠ some EVENT_TOUCHDOWN := by
  have h : Engine.firedTag "" 40 TOUCHDOWN_ALTITUDE_FT = none := by
    unfold Engine.firedTag
    split_ifs with h1 h2 h3
    · exact absurd h1 (by rintro ⟨hlt, -⟩; exact absurd hlt (lt_irrefl _))
    · exact absurd h2
        (by rintro ⟨hle, -⟩; norm_num [HANDOFF_READY_THRESHOLD_NM] at hle)
    · exact absurd h3
        (by rintro ⟨hle, -⟩; norm_num [ENTRY_ZONE_THRESHOLD_NM] at hle)
    · rfl
  exact ⟨h, by rw [h]; simp⟩

/-- Claim C5, amended.  The distance thresholds are non-strict: with the
tag not yet fired, ENTERED_ENTRY_ZONE fires at exactly 30.0 NM and
HANDOFF_READY at exactly 20.0 NM (given no touchdown); but TOUCHDOWN is
strict: it fires only for altitude_agl strictly below 50 ft and never at
exactly 50 ft. -/
theorem C5_amended_thm :
    (∀ (l : String) (d agl : ℚ), pyIn EVENT_TOUCHDOWN l = false →
      agl < TOUCHDOWN_ALTITUDE_FT → Engine.firedTag l d agl = some EVENT_TOUCHDOWN)
    ∧ (∀ (l : String) (agl : ℚ), pyIn EVENT_HANDOFF_READY l = false →
      TOUCHDOWN_ALTITUDE_FT ≤ agl →
      Engine.firedTag l HANDOFF_READY_THRESHOLD_NM agl = some EVENT_HANDOFF_READY)
    ∧ (∀ (l : String) (agl : ℚ), pyIn EVENT_ENTERED_ENTRY_ZONE l = false →
      TOUCHDOWN_ALTITUDE_FT ≤ agl →
      Engine.firedTag l ENTRY_ZONE_THRESHOLD_NM agl = some EVENT_ENTERED_ENTRY_ZONE)
    ∧ (∀ (l : String) (d : ℚ),
      Engine.firedTag l d TOUCHDOWN_ALTITUDE_FT ≠ some EVENT_TOUCHDOWN) := by
  refine ⟨?_, ?_, ?_, ?_⟩
  · intro l d agl h2 h1
    unfold Engine.firedTag
    rw [if_pos ⟨h1, h2⟩]
  · intro l agl hpy hge
    unfold Engine.firedTag
    have hn1 : ¬(agl < TOUCHDOWN_ALTITUDE_FT ∧ pyIn EVENT_TOUCHDOWN l = false) := by
      rintro ⟨hlt, -⟩
      linarith
    rw [if_neg hn1, if_pos ⟨le_refl _, hpy⟩]
  · intro l agl hpy hge
    unfold Engine.firedTag
    have hn1 : ¬(agl < TOUCHDOWN_ALTITUDE_FT ∧ pyIn EVENT_TOUCHDOWN l = false) := by
      rintro ⟨hlt, -⟩
      linarith
    have hn2 : ¬(ENTRY_ZONE_THRESHOLD_NM ≤ HANDOFF_READY_THRESHOLD_NM
        ∧ pyIn EVENT_HANDOFF_READY l = false) := by
      rintro ⟨hle, -⟩
      norm_num [HANDOFF_READY_THRESHOLD_NM, ENTRY_ZONE_THRESHOLD_NM] at hle
    rw [if_neg hn1, if_neg hn2, if_pos ⟨le_refl _, hpy⟩]
  · intro l d
    unfold Engine.firedTag
    split_ifs with h1 h2 h3
    · exact absurd h1 (by rintro ⟨hlt, -⟩; exact absurd hlt (lt_irrefl _))
    · simp [EVENT_HANDOFF_READY, EVENT_TOUCHDOWN]
    · simp [EVENT_ENTERED_ENTRY_ZONE, EVENT_TOUCHDOWN]
    · simp

/-- Claim C5, witness: the four boundary facts at concrete inputs. -/
theorem C5_amended_witness :
    Engine.firedTag "" 40 31 = some EVENT_TOUCHDOWN
    ∧ Engine.firedTag "" HANDOFF_READY_THRESHOLD_NM 9431 = some EVENT_HANDOFF_READY
    ∧ Engine.firedTag "" ENTRY_ZONE_THRESHOLD_NM 9431 = some EVENT_ENTERED_ENTRY_ZONE
    ∧ Engine.firedTag "" 40 TOUCHDOWN_ALTITUDE_FT ≠ some EVENT_TOUCHDOWN := by
  have h := C5_amended_thm
  exact ⟨h.1 "" 40 31 (by decide) (by norm_num [TOUCHDOWN_ALTITUDE_FT]),
    h.2.1 "" 9431 (by decide) (by norm_num [TOUCHDOWN_ALTITUDE_FT]),
    h.2.2.1 "" 9431 (by decide) (by norm_num [TOUCHDOWN_ALTITUDE_FT]),
    h.2.2.2 "" 40⟩

/-! ## Claim C10 -/

/-- Claim C10, counterexample.  The listener performs no check of the
current controller: an aircraft.created ARRIVAL message naming a row that
is already controlled by ENGINE is still written (its phase is reset to
CRUISE and another engine-assigned event is appended), refuting the claim
that the ingestor only ever writes to aircraft whose controller is not
already ENGINE. -/
theorem C10_counterexample :
    engineRowDescent.controller = "ENGINE"
    ∧ SpawnListener.handle_message true true engineStore
        (.valid "aircraft.created" ⟨some 1, "ARRIVAL"⟩)
      = ⟨[{ engineRowDescent with phase := "CRUISE" }],
         [⟨"INFO", "aircraft.engine_assigned", some 1, "ENGINE", "SYS"⟩]⟩
    ∧ ({ engineRowDescent with phase := "CRUISE" }) ≠ engineRowDescent := by
  refine ⟨rfl, rfl, ?_⟩
  intro hc
  have hph : ({ engineRowDescent with phase := "CRUISE" }).phase
      = engineRowDescent.phase := by rw [hc]
  simp [engineRowDescent, sampleRow] at hph

/-- Claim C10, amended.  Non-arrivals, malformed messages and messages of
other types leave the store unchanged; an ARRIVAL aircraft.created
message (with the database available) sets controller=ENGINE and
phase=CRUISE on the named row and appends exactly one engine-assigned
event — but without any guard on the row's current controller. -/
theorem C10_amended_thm :
    (∀ (updOk evOk : Bool) (st : Store) (ca : SpawnListener.CreatedAircraft),
      ca.flight_type ≠ "ARRIVAL" →
      SpawnListener.process_aircraft_created_event updOk evOk st ca = st)
    ∧ (∀ (updOk evOk : Bool) (st : Store),
      SpawnListener.handle_message updOk evOk st SpawnListener.BusMessage.malformed
        = st)
    ∧ (∀ (updOk evOk : Bool) (st : Store) (t : String)
        (ca : SpawnListener.CreatedAircraft), t ≠ "aircraft.created" →
      SpawnListener.handle_message updOk evOk st (.valid t ca) = st)
    ∧ (∀ (st : Store) (i : Nat),
      (SpawnListener.process_aircraft_created_event true true st
          ⟨some i, "ARRIVAL"⟩).events
        = st.events ++ [⟨"INFO", "aircraft.engine_assigned", some i, "ENGINE", "SYS"⟩]
      ∧ (SpawnListener.process_aircraft_created_event true true st
          ⟨some i, "ARRIVAL"⟩).aircraft
        = st.aircraft.map (fun row => if some row.id = some i then
            { row with controller := "ENGINE", phase := "CRUISE" } else row)) := by
  refine ⟨?_, ?_, ?_, ?_⟩
  · intro updOk evOk st ca h
    unfold SpawnListener.process_aircraft_created_event
    rw [if_pos h]
  · intro updOk evOk st
    rfl
  · intro updOk evOk st t ca h
    simp only [SpawnListener.handle_message]
    rw [if_neg h]
  · intro st i
    exact ⟨rfl, rfl⟩

/-- Claim C10, witness: the amended theorem applied to a departure
message, a malformed message, a foreign message type and a concrete
arrival. -/
theorem C10_amended_witness :
    SpawnListener.process_aircraft_created_event true true sampleStore
      ⟨some 2, "DEPARTURE"⟩ = sampleStore
    ∧ SpawnListener.handle_message true true sampleStore
        SpawnListener.BusMessage.malformed = sampleStore
    ∧ SpawnListener.handle_message true true sampleStore
        (.valid "aircraft.position_updated" ⟨some 1, "ARRIVAL"⟩) = sampleStore
    ∧ (SpawnListener.process_aircraft_created_event true true sampleStore
        ⟨some 1, "ARRIVAL"⟩).events
      = sampleStore.events
        ++ [⟨"INFO", "aircraft.engine_assigned", some 1, "ENGINE", "SYS"⟩] := by
  have h := C10_amended_thm
  exact ⟨h.1 true true sampleStore ⟨some 2, "DEPARTURE"⟩ (by decide),
    h.2.1 true true sampleStore,
    h.2.2.1 true true sampleStore "aircraft.position_updated"
      ⟨some 1, "ARRIVAL"⟩ (by decide),
    (h.2.2.2 sampleStore 1).1⟩

end ATC
